import Mathlib

/-!
Shallow embedding of the AvenLab physics-server vehicle dynamics core
(`src/physics-server/src/`), over the real numbers.  Rust `f32` values are
modelled as `ℝ`; `x.clamp(lo, hi)` as `min (max x lo) hi`; `x.max(y)` as
`max x y`; vectors `[f32; 3]` as a record of three reals.  Each definition
mirrors one function (or one inline block) of the source, named after it.
-/

noncomputable section

open scoped Classical

namespace AvenLab

/-- Model of the Rust 3-vector `Vec3 = [f32; 3]` from `aven_tire/types.rs`. -/
structure Vec3 where
  x : ℝ
  y : ℝ
  z : ℝ
deriving DecidableEq

/-- Source: `types.rs` `v_add`. -/
def v_add (a b : Vec3) : Vec3 := ⟨a.x + b.x, a.y + b.y, a.z + b.z⟩

/-- Source: `types.rs` `v_sub`. -/
def v_sub (a b : Vec3) : Vec3 := ⟨a.x - b.x, a.y - b.y, a.z - b.z⟩

/-- Source: `types.rs` `v_scale`. -/
def v_scale (v : Vec3) (s : ℝ) : Vec3 := ⟨v.x * s, v.y * s, v.z * s⟩

/-- Source: `types.rs` `v_dot`. -/
def v_dot (a b : Vec3) : ℝ := a.x * b.x + a.y * b.y + a.z * b.z

/-- Source: `types.rs` `v_mag` (Euclidean norm via `sqrt`). -/
def v_mag (v : Vec3) : ℝ := Real.sqrt (v_dot v v)

/-- Source: `types.rs` `v_cross`. -/
def v_cross (a b : Vec3) : Vec3 :=
  ⟨a.y * b.z - a.z * b.y, a.z * b.x - a.x * b.z, a.x * b.y - a.y * b.x⟩

/-- Rust `x.clamp(lo, hi)` (for `lo ≤ hi`): `min (max x lo) hi`. -/
def rclamp (x lo hi : ℝ) : ℝ := min (max x lo) hi

/-- Zero vector. -/
def vzero : Vec3 := ⟨0, 0, 0⟩

-- ============================================================
-- Tire state machine (`aven_tire/state.rs`)
-- ============================================================

/-- Source: `state.rs` `enum TireState`. -/
inductive TireState where
  | Grip
  | Slide
  | Lock
deriving DecidableEq

/-- Source: `state.rs` `update_tire_state` (lines 8-44), translated branch by
branch: hard-lock test first, then ellipse saturation, then per-state
recovery. -/
def update_tire_state (prev : TireState) (nx ny brake speed : ℝ) : TireState :=
  if 0.85 < brake ∧ 1.0 < speed ∧ 0.9 < nx then TireState.Lock
  else if 1.0 < nx * nx + ny * ny then TireState.Slide
  else
    match prev with
    | TireState.Lock => if brake < 0.3 ∨ speed < 0.5 then TireState.Grip else TireState.Lock
    | TireState.Slide => if nx < 0.7 ∧ ny < 0.7 then TireState.Grip else TireState.Slide
    | TireState.Grip => TireState.Grip

/-- Modelled from the spec (§4.7 transition table), for comparison with
`update_tire_state`: Any → Lock if b > 0.85 ∧ s > 1 ∧ n_x > 0.9; Any → Slide
if n_x² + n_y² > 1; Lock → Grip iff b < 0.3 ∨ s < 0.5; Slide → Grip iff
n_x < 0.7 ∧ n_y < 0.7; Grip stays Grip. -/
def specTireTable (prev : TireState) (nx ny brake speed : ℝ) : TireState :=
  if 0.85 < brake ∧ 1.0 < speed ∧ 0.9 < nx then TireState.Lock
  else if 1.0 < nx ^ 2 + ny ^ 2 then TireState.Slide
  else
    match prev with
    | TireState.Lock => if brake < 0.3 ∨ speed < 0.5 then TireState.Grip else TireState.Lock
    | TireState.Slide => if nx < 0.7 ∧ ny < 0.7 then TireState.Grip else TireState.Slide
    | TireState.Grip => TireState.Grip

-- ============================================================
-- Anti-roll bar redistribution (`aven_tire/anti_roll.rs`)
-- ============================================================

/-- Source: `anti_roll.rs` `apply_arb_load_transfer` (lines 40-81), the final
transfer amount: raw `k·Δ`, load scaling clamped to `[0.3, 1.2]`, then
saturation at `±0.4·fz_ref`.  Arguments are the two axle compressions, the two
current normals, the bar stiffness and the reference load. -/
def arbTransfer (cl cr nl nr k fzref : ℝ) : ℝ :=
  rclamp (k * (cl - cr) * rclamp ((nl + nr) / (2 * fzref)) 0.3 1.2)
    (-(0.4 * fzref)) (0.4 * fzref)

/-- Source: `anti_roll.rs` `apply_arb_load_transfer` (lines 40-81): the pair of
updated normals, modelling the two `HashMap` inserts, for the case where both
compressions are present (the early `return` when a compression is missing is
the identity on the map). -/
def apply_arb_load_transfer (cl cr nl nr k fzref : ℝ) : ℝ × ℝ :=
  if |cl - cr| < 1e-4 then (nl, nr)
  else (max (nl - arbTransfer cl cr nl nr k fzref) 0,
        max (nr + arbTransfer cl cr nl nr k fzref) 0)

-- ============================================================
-- Suspension normal force
-- ============================================================

/-- Source: `physics.rs` `apply_suspension` line 597:
`fz_ref = body_mass * 9.81 / wheels_count`. -/
def fzRef (mass wheels : ℝ) : ℝ := mass * 9.81 / wheels

/-- Source: `suspension_contact.rs` line 117 / `physics.rs` line 655: the
5 cm/s deadband on the suspension velocity. -/
def deadzoneVel (suspension_vel : ℝ) : ℝ :=
  if |suspension_vel| < 0.05 then 0 else suspension_vel

/-- Source: `suspension_contact.rs` line 121: asymmetric damper velocity —
rebound (`v > 0`) scaled by 1.5, compression by 0.8. -/
def contactDamperVel (suspension_vel : ℝ) : ℝ :=
  if 0 < deadzoneVel suspension_vel then deadzoneVel suspension_vel * 1.5
  else deadzoneVel suspension_vel * 0.8

/-- Source: `suspension_contact.rs` `compute_suspension_force` (lines 110-128):
spring `k·x`, damper `−c·v` clamped to `±0.6·spring`, total floored at 0. -/
def compute_suspension_force (compression suspension_vel k c : ℝ) : ℝ :=
  max (k * compression +
    rclamp (-c * contactDamperVel suspension_vel)
      (-(k * compression * 0.6)) (k * compression * 0.6)) 0

/-- Source: `suspension_contact.rs` `build_suspension_contact` lines 187-195:
the normal force stored on the contact is `compute_suspension_force` capped at
`2.2·fz_ref`. -/
def buildContactNormalForce (compression suspension_vel k c fzref : ℝ) : ℝ :=
  min (compute_suspension_force compression suspension_vel k c) (fzref * 2.2)

/-- Source: `physics.rs` `apply_suspension` lines 651-660: the mutated
suspension velocity — 5 cm/s deadzone, then rebound (`v > 0`) scaled by
0.15. -/
def physicsSuspensionVel (suspension_vel : ℝ) : ℝ :=
  if 0 < deadzoneVel suspension_vel then deadzoneVel suspension_vel * 0.15
  else deadzoneVel suspension_vel

/-- Source: `physics.rs` lines 663-668 (the live per-tick path): spring `k·x`,
damper `−c·v` clamped to `±0.6·spring`, total floored at 0. -/
def physicsNF1 (compression suspension_vel k c : ℝ) : ℝ :=
  max (k * compression +
    rclamp (-c * physicsSuspensionVel suspension_vel)
      (-(k * compression * 0.6)) (k * compression * 0.6)) 0

/-- Source: `physics.rs` line 669: `normal_force.min(25_000.0)`. -/
def physicsNF2 (compression suspension_vel k c : ℝ) : ℝ :=
  min (physicsNF1 compression suspension_vel k c) 25000

/-- Source: `physics.rs` line 689: hop failsafe
(`if suspension_vel.abs() > 1.5 { normal_force *= 0.7 }`). -/
def physicsNF3 (compression suspension_vel k c : ℝ) : ℝ :=
  if 1.5 < |physicsSuspensionVel suspension_vel| then
    physicsNF2 compression suspension_vel k c * 0.7
  else physicsNF2 compression suspension_vel k c

/-- Source: `physics.rs` lines 692-694: the 200 N grounded floor, the last
mutation of `normal_force` before the suspension impulse is pushed (line 699)
and the `ContactPatch` is built (line 836). -/
def physicsNormalForce (compression suspension_vel k c : ℝ) : ℝ :=
  if physicsNF3 compression suspension_vel k c < 200 then 200
  else physicsNF3 compression suspension_vel k c

/-- Source: `solve.rs` `solve_step` lines 88-89: the per-wheel skip guard
`if !c.grounded || c.normal_force < 50.0 { continue; }`. -/
def solveStepSkip (grounded : Bool) (normal_force : ℝ) : Prop :=
  grounded = false ∨ normal_force < 50

-- ============================================================
-- Solver input records (`aven_tire/types.rs`)
-- ============================================================

/-- Source: `types.rs` `SolveContext` (the fields the tire solver reads). -/
structure SolveContext where
  dt : ℝ
  mass : ℝ
  engine_force : ℝ
  brake_force : ℝ
  abs_enabled : Bool
  tcs_enabled : Bool
  abs_limit : ℝ
  tcs_limit : ℝ
  driven_wheels : ℝ

/-- Source: `types.rs` `ControlInput`. -/
structure ControlInput where
  throttle : ℝ
  brake : ℝ
  steer : ℝ

/-- Source: `types.rs` `WheelId`. -/
inductive WheelId where
  | FL
  | FR
  | RL
  | RR
deriving DecidableEq

/-- Source: `types.rs` `WheelId::is_rear`. -/
def WheelId.is_rear (w : WheelId) : Bool :=
  match w with
  | WheelId.RL => true
  | WheelId.RR => true
  | _ => false

/-- Source: `types.rs` `ContactPatch` (the fields the tire solver reads;
`vel_world` is the world velocity of the contact point, read by
`solve_longitudinal` to reorient the brake impulse). -/
structure ContactPatch where
  wheel : WheelId
  grounded : Bool
  forward : Vec3
  side : Vec3
  v_long : ℝ
  v_lat : ℝ
  vel_world : Vec3
  normal_force : ℝ
  mu_lat : ℝ
  mu_long : ℝ
  roll_factor : ℝ
  drive : Bool
  compression_ratio : ℝ

-- ============================================================
-- Longitudinal solver (`aven_tire/longitudinal.rs` lines 58-192)
-- ============================================================

/-- Source: `longitudinal.rs` line 66: `let dt = ctx.dt.max(1e-6);`. -/
def sl_dt (ctx : SolveContext) : ℝ := max ctx.dt 1e-6

/-- Source: `longitudinal.rs` line 72: the single longitudinal friction
capacity `j_cap = (mu_long * normal_force * dt).max(1e-6)`. -/
def sl_jcap (ctx : SolveContext) (patch : ContactPatch) : ℝ :=
  max (patch.mu_long * patch.normal_force * sl_dt ctx) 1e-6

/-- Source: `longitudinal.rs` lines 80-81: the engine load fraction — note the
denominator is `mass·9.81 / driven_wheels.max(1)`, not `mass·9.81 / 4`. -/
def sl_loadFrac (ctx : SolveContext) (patch : ContactPatch) : ℝ :=
  rclamp (patch.normal_force / (ctx.mass * 9.81 / max ctx.driven_wheels 1)) 0.5 1.6

/-- Source: `longitudinal.rs` lines 83-89: engine force, drive wheels only. -/
def sl_engineForce (ctx : SolveContext) (ctrl : ControlInput) (patch : ContactPatch) : ℝ :=
  if patch.drive then
    ctx.engine_force / max ctx.driven_wheels 1 * ctrl.throttle * sl_loadFrac ctx patch
  else 0

/-- Source: `longitudinal.rs` line 92: engine impulse scalar, clamped to the
friction capacity. -/
def sl_engineJ (ctx : SolveContext) (ctrl : ControlInput) (patch : ContactPatch) : ℝ :=
  rclamp (sl_engineForce ctx ctrl patch * sl_dt ctx) (-sl_jcap ctx patch) (sl_jcap ctx patch)

/-- Source: `longitudinal.rs` line 93: engine impulse along the wheel forward
direction (before TCS). -/
def sl_engineImpulse (ctx : SolveContext) (ctrl : ControlInput) (patch : ContactPatch) : Vec3 :=
  v_scale patch.forward (sl_engineJ ctx ctrl patch)

/-- Source: `longitudinal.rs` line 101: actuator brake ceiling
`j_brake_act = (brake_force * brake_share * dt).max(0)`. -/
def sl_jbrakeAct (ctx : SolveContext) (brake_share : ℝ) : ℝ :=
  max (ctx.brake_force * brake_share * sl_dt ctx) 0

/-- Source: `longitudinal.rs` line 105: `j_stop = -mass * v_long`. -/
def sl_jstop (ctx : SolveContext) (patch : ContactPatch) : ℝ := -ctx.mass * patch.v_long

/-- Source: `longitudinal.rs` line 108: brake demand scaled by driver brake. -/
def sl_jbrakeDemand (ctx : SolveContext) (ctrl : ControlInput) (patch : ContactPatch) : ℝ :=
  sl_jstop ctx patch * ctrl.brake

/-- Source: `longitudinal.rs` line 112: brake scalar after the actuator
clamp. -/
def sl_brakeJ1 (ctx : SolveContext) (ctrl : ControlInput) (patch : ContactPatch)
    (brake_share : ℝ) : ℝ :=
  rclamp (sl_jbrakeDemand ctx ctrl patch) (-sl_jbrakeAct ctx brake_share)
    (sl_jbrakeAct ctx brake_share)

/-- Source: `longitudinal.rs` line 113: brake scalar after the friction
capacity clamp. -/
def sl_brakeJ2 (ctx : SolveContext) (ctrl : ControlInput) (patch : ContactPatch)
    (brake_share : ℝ) : ℝ :=
  rclamp (sl_brakeJ1 ctx ctrl patch brake_share) (-sl_jcap ctx patch) (sl_jcap ctx patch)

/-- Source: `longitudinal.rs` lines 118-120: the same-sign zeroing safety rule
(`if brake_j * v_long > 0 { brake_j = 0 }`). -/
def sl_brakeJ3 (ctx : SolveContext) (ctrl : ControlInput) (patch : ContactPatch)
    (brake_share : ℝ) : ℝ :=
  if 0 < sl_brakeJ2 ctx ctrl patch brake_share * patch.v_long then 0
  else sl_brakeJ2 ctx ctrl patch brake_share

/-- Source: `longitudinal.rs` lines 125-134: low-speed residual handling for
`|v_long| < 0.05`. -/
def sl_brakeJ4 (ctx : SolveContext) (ctrl : ControlInput) (patch : ContactPatch)
    (brake_share : ℝ) : ℝ :=
  if |patch.v_long| < 0.05 then
    if 0.1 < ctrl.brake then
      rclamp (rclamp (-ctx.mass * patch.v_long) (-sl_jbrakeAct ctx brake_share)
          (sl_jbrakeAct ctx brake_share))
        (-sl_jcap ctx patch) (sl_jcap ctx patch)
    else 0
  else sl_brakeJ3 ctx ctrl patch brake_share

/-- Source: `longitudinal.rs` line 140: planar world velocity of the contact
`[v.x, 0, v.z]`. -/
def sl_vplanar (patch : ContactPatch) : Vec3 := ⟨patch.vel_world.x, 0, patch.vel_world.z⟩

/-- Source: `longitudinal.rs` line 141: planar speed. -/
def sl_speed (patch : ContactPatch) : ℝ := v_mag (sl_vplanar patch)

/-- Source: `longitudinal.rs` lines 136-148: the brake impulse vector after
reorientation — when the planar speed exceeds `1e-3` the magnitude `|brake_j|`
is applied opposite the planar world velocity, otherwise the brake impulse is
fully zeroed. -/
def sl_brakeImpulse (ctx : SolveContext) (ctrl : ControlInput) (patch : ContactPatch)
    (brake_share : ℝ) : Vec3 :=
  if 1e-3 < sl_speed patch then
    v_scale (v_scale (sl_vplanar patch) (-1 / sl_speed patch))
      |sl_brakeJ4 ctx ctrl patch brake_share|
  else vzero

/-- Source: `longitudinal.rs` line 154: `engine_nx`. -/
def sl_engineNx (ctx : SolveContext) (ctrl : ControlInput) (patch : ContactPatch) : ℝ :=
  v_mag (sl_engineImpulse ctx ctrl patch) / sl_jcap ctx patch

/-- Source: `longitudinal.rs` line 155: `brake_nx`. -/
def sl_brakeNx (ctx : SolveContext) (ctrl : ControlInput) (patch : ContactPatch)
    (brake_share : ℝ) : ℝ :=
  v_mag (sl_brakeImpulse ctx ctrl patch brake_share) / sl_jcap ctx patch

/-- Source: `longitudinal.rs` lines 158-161: TCS scaling of the engine
impulse. -/
def sl_engineImpulseTcs (ctx : SolveContext) (ctrl : ControlInput)
    (patch : ContactPatch) : Vec3 :=
  if ctx.tcs_enabled = true ∧ 0.01 < ctrl.throttle ∧ ctx.tcs_limit < sl_engineNx ctx ctrl patch
  then v_scale (sl_engineImpulse ctx ctrl patch)
    (rclamp (ctx.tcs_limit / sl_engineNx ctx ctrl patch) 0 1)
  else sl_engineImpulse ctx ctrl patch

/-- Source: `longitudinal.rs` lines 169-176: ABS scaling of the brake
impulse. -/
def sl_brakeImpulseAbs (ctx : SolveContext) (ctrl : ControlInput) (patch : ContactPatch)
    (brake_share : ℝ) : Vec3 :=
  if ctx.abs_enabled = true ∧ 0.01 < ctrl.brake ∧ 1 < |patch.v_long| ∧
      ctx.abs_limit < sl_brakeNx ctx ctrl patch brake_share
  then v_scale (sl_brakeImpulse ctx ctrl patch brake_share)
    (rclamp (ctx.abs_limit / sl_brakeNx ctx ctrl patch brake_share) 0 1)
  else sl_brakeImpulse ctx ctrl patch brake_share

/-- Source: `longitudinal.rs` `solve_longitudinal` (lines 58-192): the final
`(impulse, nx)` pair — zero for ungrounded patches, otherwise the sum of the
TCS-scaled engine impulse and the ABS-scaled reoriented brake impulse. -/
def solve_longitudinal (ctx : SolveContext) (ctrl : ControlInput) (patch : ContactPatch)
    (brake_share : ℝ) : Vec3 × ℝ :=
  if patch.grounded = false then (vzero, 0)
  else
    let impulse := v_add (sl_engineImpulseTcs ctx ctrl patch)
      (sl_brakeImpulseAbs ctx ctrl patch brake_share)
    (impulse, v_mag impulse / sl_jcap ctx patch)

/-- Modelled from the spec (§4.4 and the C5 sources): the engine impulse
scalar with `load_frac = clamp(F_n / F_z_ref, 0.5, 1.6)` and
`F_z_ref = m·g/4`, for comparison with `sl_engineJ`. -/
def specEngineJ (ctx : SolveContext) (ctrl : ControlInput) (patch : ContactPatch) : ℝ :=
  rclamp (ctx.engine_force / ctx.driven_wheels * ctrl.throttle *
      rclamp (patch.normal_force / (ctx.mass * 9.81 / 4)) 0.5 1.6 * sl_dt ctx)
    (-sl_jcap ctx patch) (sl_jcap ctx patch)

/-- Amended engine formula (the claim with the load-fraction denominator
corrected from `m·g/4` to `m·g / max(N_driven, 1)`), written out in full for
comparison with the translated code. -/
def amendedEngineJ (ctx : SolveContext) (ctrl : ControlInput) (patch : ContactPatch) : ℝ :=
  rclamp (ctx.engine_force / max ctx.driven_wheels 1 * ctrl.throttle *
      rclamp (patch.normal_force / (ctx.mass * 9.81 / max ctx.driven_wheels 1)) 0.5 1.6 *
      sl_dt ctx)
    (-sl_jcap ctx patch) (sl_jcap ctx patch)

-- ============================================================
-- Lateral solver (`aven_tire/brush_lite.rs` lines 57-181)
-- ============================================================

/-- Source: `brush_lite.rs` `BrushLiteConfig` (only the field the live code
reads). -/
structure BrushLiteConfig where
  v_lat_deadzone : ℝ

/-- Source: `brush_lite.rs` `Default for BrushLiteConfig`:
`v_lat_deadzone = 0.0`. -/
def brushLiteDefault : BrushLiteConfig := ⟨0⟩

/-- Source: `brush_lite.rs` lines 138-147: the lateral impulse scalar —
`alpha = atan2(v_lat, |v_long|.max(0.5))` (the second argument is positive, so
`atan2` is `arctan` of the quotient), `-10·mass·alpha·dt`, Coulomb-clamped to
`±mu_lat·F_n·dt`. -/
def brushScalar (ctx : SolveContext) (patch : ContactPatch) : ℝ :=
  rclamp (-(10 * ctx.mass) * Real.arctan (patch.v_lat / max |patch.v_long| 0.5) * ctx.dt)
    (-(patch.mu_lat * patch.normal_force * ctx.dt))
    (patch.mu_lat * patch.normal_force * ctx.dt)

/-- Source: `brush_lite.rs` `solve_brush_lite` (lines 57-181): ungrounded and
deadzone early-outs, then the clamped scalar applied along `side`.  All of the
spec's chain (suspension factor, deadzone ramp, slip falloff, brake coupling,
rear saturation) is commented out in the source. -/
def solve_brush_lite (cfg : BrushLiteConfig) (ctx : SolveContext) (patch : ContactPatch) :
    Vec3 :=
  if patch.grounded = false then vzero
  else if |patch.v_lat| < cfg.v_lat_deadzone then vzero
  else v_scale patch.side (brushScalar ctx patch)

/-- Modelled from the spec (§4.5 steps 4-9, the C6 sources): desired impulse
`−v_lat·(m/4)·suspension_factor·scale`, friction clamp, slip-angle falloff,
brake coupling, rear saturation, with the deadzone soft ramp
`scale = clamp((|v_lat| − d)/d, 0, 1)` at `d = 1.5`.  For comparison with
`brushScalar`. -/
def specBrushScalar (ctx : SolveContext) (ctrl : ControlInput) (patch : ContactPatch) : ℝ :=
  rclamp (-patch.v_lat * (ctx.mass / 4) * (1 - ContactPatch.compression_ratio patch * 0.10) *
      rclamp ((|patch.v_lat| - 1.5) / 1.5) 0 1)
    (-(patch.mu_lat * patch.normal_force * ctx.dt))
    (patch.mu_lat * patch.normal_force * ctx.dt) *
  rclamp (1 - |Real.arctan (patch.v_lat / max |patch.v_long| 1)| / 0.6) 0.2 1 *
  rclamp (1 - 0.6 * ctrl.brake) 0.3 1 *
  (if patch.wheel.is_rear then (0.85 : ℝ) else 1)

-- ============================================================
-- Friction ellipse fusion (`aven_tire/solve.rs` lines 104-150)
-- ============================================================

/-- Source: `solve.rs` line 104: `max_long = (mu_long * F_n * dt).max(1e-6)`. -/
def ellipseMaxLong (mu_long normal_force dt : ℝ) : ℝ := max (mu_long * normal_force * dt) 1e-6

/-- Source: `solve.rs` line 112: `max_lat = (mu_lat * F_n * dt).max(1e-6)`. -/
def ellipseMaxLat (mu_lat normal_force dt : ℝ) : ℝ := max (mu_lat * normal_force * dt) 1e-6

/-- Source: `solve.rs` line 114: `nx = v_mag(long.impulse) / max_long`. -/
def ellipseNx (longImp : Vec3) (mu_long normal_force dt : ℝ) : ℝ :=
  v_mag longImp / ellipseMaxLong mu_long normal_force dt

/-- Source: `solve.rs` line 115: `ny = v_mag(lat) / max_lat`. -/
def ellipseNy (latImp : Vec3) (mu_lat normal_force dt : ℝ) : ℝ :=
  v_mag latImp / ellipseMaxLat mu_lat normal_force dt

/-- Source: `solve.rs` lines 117-123: the ellipse scale `1/√(n_x²+n_y²)` when
the ellipse is exceeded, else 1. -/
def ellipseScale (longImp latImp : Vec3) (mu_long mu_lat normal_force dt : ℝ) : ℝ :=
  if 1 < ellipseNx longImp mu_long normal_force dt * ellipseNx longImp mu_long normal_force dt +
      ellipseNy latImp mu_lat normal_force dt * ellipseNy latImp mu_lat normal_force dt then
    1 / Real.sqrt (ellipseNx longImp mu_long normal_force dt *
      ellipseNx longImp mu_long normal_force dt +
      ellipseNy latImp mu_lat normal_force dt * ellipseNy latImp mu_lat normal_force dt)
  else 1

/-- Source: `solve.rs` lines 125-133: the projected per-wheel impulse pair —
the longitudinal channel scaled by `scale`, the lateral channel by
`scale * roll_factor`. -/
def ellipseProject (longImp latImp : Vec3) (mu_long mu_lat normal_force dt roll_factor : ℝ) :
    Vec3 × Vec3 :=
  (v_scale longImp (ellipseScale longImp latImp mu_long mu_lat normal_force dt),
   v_scale latImp (ellipseScale longImp latImp mu_long mu_lat normal_force dt * roll_factor))

-- ============================================================
-- Wheel basis (live path: `physics.rs` lines 736-756)
-- ============================================================

/-- Source: `physics.rs` line 607 / `suspension_contact.rs` line 152: the
ground normal is the fixed world up vector. -/
def groundN : Vec3 := ⟨0, 1, 0⟩

/-- Projection of a vector onto the contact plane (the part of `physics.rs`
lines 737-738 and `suspension_contact.rs` line 89 before normalization). -/
def planarProj (v n : Vec3) : Vec3 := v_sub v (v_scale n (v_dot v n))

/-- Source: `physics.rs` lines 737-744: the steered chassis forward projected
onto the ground plane and normalized, with fallback `[0,0,-1]`. -/
def physicsWheelForward (chassis_forward : Vec3) : Vec3 :=
  if 1e-6 < v_mag (planarProj chassis_forward groundN) then
    v_scale (planarProj chassis_forward groundN) (1 / v_mag (planarProj chassis_forward groundN))
  else ⟨0, 0, -1⟩

/-- Source: `physics.rs` line 756 (the live path):
`wheel_side = wheel_forward.cross(&ground_n)` — forward × normal, not
normal × forward. -/
def physicsWheelSide (wheel_forward : Vec3) : Vec3 := v_cross wheel_forward groundN

/-- Source: `suspension_contact.rs` `planar_wheel_basis` lines 88-96: the
planarized, normalized forward with fallback `+Z`. -/
def planarBasisForward (forward_world ground_normal : Vec3) : Vec3 :=
  if v_mag (planarProj forward_world ground_normal) < 1e-6 then ⟨0, 0, 1⟩
  else v_scale (planarProj forward_world ground_normal)
    (1 / v_mag (planarProj forward_world ground_normal))

/-- Source: `suspension_contact.rs` `planar_wheel_basis` lines 98-107:
`side = normalize(ground_normal × forward)` with fallback `+X`. -/
def planarBasisSide (forward ground_normal : Vec3) : Vec3 :=
  if v_mag (v_cross ground_normal forward) < 1e-6 then ⟨1, 0, 0⟩
  else v_scale (v_cross ground_normal forward) (1 / v_mag (v_cross ground_normal forward))

/-- Source: `suspension_contact.rs` `planar_wheel_basis` (lines 82-108), the
builder variant that is not called from the live tick path. -/
def planar_wheel_basis (forward_world ground_normal : Vec3) : Vec3 × Vec3 :=
  (planarBasisForward forward_world ground_normal,
   planarBasisSide (planarBasisForward forward_world ground_normal) ground_normal)

-- ============================================================
-- Velocity damping (`physics.rs` `apply_velocity_damping` lines 1118-1138)
-- ============================================================

/-- Source: `physics.rs` `apply_velocity_damping` (lines 1118-1138), per body:
only `set_angvel` is called — when `|linvel| < 1` the angular velocity becomes
`(0, ω_y·exp(−6·dt), 0)`, otherwise it is scaled by `exp(−2·dt)`; the linear
velocity is never modified.  Returns the (linvel, angvel) pair after the
pass. -/
def apply_velocity_damping (linvel angvel : Vec3) (dt : ℝ) : Vec3 × Vec3 :=
  (linvel,
   if v_mag linvel < 1 then ⟨0, angvel.y * Real.exp (-6 * dt), 0⟩
   else v_scale angvel (Real.exp (-2 * dt)))

-- ============================================================
-- Helper lemmas
-- ============================================================

/-- The clamp never exceeds its upper bound. -/
theorem rclamp_le_hi (x lo hi : ℝ) : rclamp x lo hi ≤ hi := min_le_right _ _

/-- The clamp never goes below its lower bound (when the interval is
nonempty). -/
theorem lo_le_rclamp (x lo hi : ℝ) (h : lo ≤ hi) : lo ≤ rclamp x lo hi :=
  le_min (le_max_right _ _) h

/-- A symmetric clamp of a nonpositive value is nonpositive. -/
theorem rclamp_nonpos {x a : ℝ} (hx : x ≤ 0) (ha : 0 ≤ a) : rclamp x (-a) a ≤ 0 :=
  le_trans (min_le_left _ _) (max_le hx (by linarith))

/-- A symmetric clamp of a nonnegative value is nonnegative. -/
theorem rclamp_nonneg {x a : ℝ} (hx : 0 ≤ x) (ha : 0 ≤ a) : 0 ≤ rclamp x (-a) a :=
  le_min (le_trans hx (le_max_left _ _)) ha

/-- A symmetric clamp preserves the weak sign of a product. -/
theorem rclamp_mul_nonpos {x v a : ℝ} (hxv : x * v ≤ 0) (ha : 0 ≤ a) :
    rclamp x (-a) a * v ≤ 0 := by
  rcases lt_trichotomy v 0 with hv | hv | hv
  · have hx : 0 ≤ x := by nlinarith
    have h := rclamp_nonneg hx ha
    nlinarith
  · simp [hv]
  · have hx : x ≤ 0 := by nlinarith
    have h := rclamp_nonpos hx ha
    nlinarith

/-- A symmetric clamp is bounded in absolute value. -/
theorem abs_rclamp_le {x a : ℝ} (ha : 0 ≤ a) : |rclamp x (-a) a| ≤ a :=
  abs_le.mpr ⟨lo_le_rclamp _ _ _ (by linarith), rclamp_le_hi _ _ _⟩

/-- The self dot product is nonnegative. -/
theorem v_dot_self_nonneg (v : Vec3) : 0 ≤ v_dot v v := by
  unfold v_dot; nlinarith [sq_nonneg v.x, sq_nonneg v.y, sq_nonneg v.z]

/-- The magnitude is nonnegative. -/
theorem v_mag_nonneg (v : Vec3) : 0 ≤ v_mag v := Real.sqrt_nonneg _

/-- Magnitude of a scaled vector. -/
theorem v_mag_scale (v : Vec3) (s : ℝ) : v_mag (v_scale v s) = |s| * v_mag v := by
  unfold v_mag v_scale v_dot
  rw [show v.x * s * (v.x * s) + v.y * s * (v.y * s) + v.z * s * (v.z * s) =
    s ^ 2 * (v.x * v.x + v.y * v.y + v.z * v.z) from by ring]
  rw [Real.sqrt_mul (sq_nonneg s), Real.sqrt_sq_eq_abs]

/-- Dot product pulls a left scale out front. -/
theorem v_dot_scale_left (a b : Vec3) (s : ℝ) : v_dot (v_scale a s) b = s * v_dot a b := by
  unfold v_dot v_scale
  ring

-- ============================================================
-- C7 — tire state machine matches the spec transition table
-- ============================================================

/-- C7: for all inputs, `update_tire_state` equals the spec's §4.7 transition
table — hard lock first (b > 0.85 ∧ s > 1 ∧ n_x > 0.9), then slide on
n_x² + n_y² > 1, then Lock → Grip iff b < 0.3 ∨ s < 0.5, Slide → Grip iff
n_x < 0.7 ∧ n_y < 0.7, and Grip stays Grip. -/
theorem C7_update_tire_state_matches_spec (prev : TireState) (nx ny brake speed : ℝ) :
    update_tire_state prev nx ny brake speed = specTireTable prev nx ny brake speed := by
  unfold update_tire_state specTireTable
  rw [show nx ^ 2 + ny ^ 2 = nx * nx + ny * ny from by ring]

-- ============================================================
-- C8 — anti-roll load transfer conserves the axle total
-- ============================================================

/-- C8: when both compressions are present, the compression difference passes
the `1e-4` gate, and neither updated normal is clamped to zero, the anti-roll
redistribution conserves the axle total exactly (hence within the claimed
relative tolerance `1e-3`). -/
theorem C8_arb_conservation (cl cr nl nr k fzref : ℝ)
    (hdelta : 1e-4 ≤ |cl - cr|)
    (hl : 0 ≤ nl - arbTransfer cl cr nl nr k fzref)
    (hr : 0 ≤ nr + arbTransfer cl cr nl nr k fzref) :
    (apply_arb_load_transfer cl cr nl nr k fzref).1 +
      (apply_arb_load_transfer cl cr nl nr k fzref).2 = nl + nr := by
  unfold apply_arb_load_transfer
  rw [if_neg (not_lt.mpr hdelta)]
  dsimp only
  rw [max_eq_left hl, max_eq_left hr]
  ring

/-- Witness for C8 at a concrete axle: compressions 0.02/0.01 m, normals
800/400 N, stiffness 10000 N/m, reference load 1000 N (transfer = 60 N). -/
theorem C8_arb_conservation_witness :
    (apply_arb_load_transfer 0.02 0.01 800 400 10000 1000).1 +
      (apply_arb_load_transfer 0.02 0.01 800 400 10000 1000).2 = 800 + 400 := by
  have ht : arbTransfer 0.02 0.01 800 400 10000 1000 = 60 := by
    unfold arbTransfer rclamp
    norm_num [min_def, max_def]
  exact C8_arb_conservation 0.02 0.01 800 400 10000 1000
    (by rw [show (0.02 : ℝ) - 0.01 = 0.01 from by norm_num,
      abs_of_pos (by norm_num : (0 : ℝ) < 0.01)]; norm_num)
    (by rw [ht]; norm_num)
    (by rw [ht]; norm_num)

-- ============================================================
-- C10 — live 200 N floor makes the 50 N skip unreachable
-- ============================================================

/-- C10: the live suspension path floors every grounded wheel's normal force
at 200 N (the last mutation before the suspension impulse is pushed and the
patch is handed to the tire solver), so `solve_step`'s skip guard
`normal_force < 50` can never fire for a grounded contact produced by this
path. -/
theorem C10_floor_makes_skip_unreachable (compression suspension_vel k c : ℝ) :
    200 ≤ physicsNormalForce compression suspension_vel k c ∧
    ¬ solveStepSkip true (physicsNormalForce compression suspension_vel k c) := by
  have h200 : 200 ≤ physicsNormalForce compression suspension_vel k c := by
    unfold physicsNormalForce
    split_ifs with h
    · norm_num
    · linarith [not_lt.mp h]
  refine ⟨h200, ?_⟩
  intro hs
  unfold solveStepSkip at hs
  rcases hs with h | h
  · simp at h
  · linarith

-- ============================================================
-- C3 — normal-force bounds at the end of the contact build
-- ============================================================

/-- C3 counterexample: on the live path (`physics.rs` lines 663-694, with the
registered car's stiffness k = 66217.5 N/m and mass 1350 kg), a grounded wheel
at 0.3 m compression with zero suspension velocity ends the contact build with
F_n = 19865.25 N, exceeding 2.2·F_z_ref = 7283.925 N: the live cap is
25000 N, not 2.2·F_z_ref. -/
theorem C3_counterexample :
    2.2 * fzRef 1350 4 < physicsNormalForce 0.3 0 66217.5 8509 := by
  have hpv : physicsSuspensionVel 0 = 0 := by
    unfold physicsSuspensionVel deadzoneVel
    norm_num
  have h1 : physicsNF1 0.3 0 66217.5 8509 = 19865.25 := by
    unfold physicsNF1 rclamp
    rw [hpv]
    norm_num [min_def, max_def]
  have h2 : physicsNF2 0.3 0 66217.5 8509 = 19865.25 := by
    unfold physicsNF2
    rw [h1]
    norm_num [min_def]
  have h3 : physicsNF3 0.3 0 66217.5 8509 = 19865.25 := by
    unfold physicsNF3
    rw [hpv, h2]
    norm_num
  unfold physicsNormalForce fzRef
  rw [h3]
  norm_num

/-- C3 amended: on the live path the normal force at the end of the contact
build lies in [200, 25000] for every input (the `2.2·F_z_ref` cap exists only
in the unused `suspension_contact.rs` builder). -/
theorem C3_amended_live_bounds (compression suspension_vel k c : ℝ) :
    200 ≤ physicsNormalForce compression suspension_vel k c ∧
    physicsNormalForce compression suspension_vel k c ≤ 25000 := by
  have h1 : 0 ≤ physicsNF1 compression suspension_vel k c := le_max_right _ _
  have h2a : physicsNF2 compression suspension_vel k c ≤ 25000 := min_le_right _ _
  have h2b : 0 ≤ physicsNF2 compression suspension_vel k c := le_min h1 (by norm_num)
  have h3 : physicsNF3 compression suspension_vel k c ≤ 25000 := by
    unfold physicsNF3
    split_ifs
    · nlinarith
    · exact h2a
  constructor
  · unfold physicsNormalForce
    split_ifs with h
    · norm_num
    · linarith [not_lt.mp h]
  · unfold physicsNormalForce
    split_ifs with h
    · norm_num
    · exact h3

-- ============================================================
-- C4 — contact-basis handedness
-- ============================================================

/-- A planar unit forward vector yields a side vector (live convention
`side = forward × ground_normal`) that is unit, perpendicular to the normal,
and equal to the negation of `ground_normal × forward`. -/
theorem physicsWheelSide_facts (f : Vec3) (hy : f.y = 0) (hunit : v_dot f f = 1) :
    physicsWheelSide f = v_scale (v_cross groundN f) (-1) ∧
    v_dot (physicsWheelSide f) (physicsWheelSide f) = 1 ∧
    v_dot (physicsWheelSide f) groundN = 0 := by
  unfold physicsWheelSide v_cross v_scale v_dot groundN
  unfold v_dot at hunit
  refine ⟨?_, ?_, by ring⟩
  · simp only [Vec3.mk.injEq]
    refine ⟨by ring, by ring, by ring⟩
  · linear_combination hunit - f.y * hy

/-- Normalizing a vector of positive magnitude yields a unit vector (in the
squared sense). -/
theorem v_scale_inv_mag_unit (w : Vec3) (h : 0 < v_mag w) :
    v_dot (v_scale w (1 / v_mag w)) (v_scale w (1 / v_mag w)) = 1 := by
  have hLL : v_mag w * v_mag w = v_dot w w := Real.mul_self_sqrt (v_dot_self_nonneg w)
  have hne : v_mag w ≠ 0 := ne_of_gt h
  unfold v_scale v_dot
  unfold v_dot at hLL
  field_simp
  linear_combination -hLL

/-- The planar projection against the world-up ground normal just zeroes the
y component. -/
theorem planarProj_groundN (cf : Vec3) : planarProj cf groundN = ⟨cf.x, 0, cf.z⟩ := by
  unfold planarProj groundN v_sub v_scale v_dot
  simp only [Vec3.mk.injEq]
  refine ⟨by ring, by ring, by ring⟩

/-- C4 counterexample: in the live path (`physics.rs` line 756) the side
vector is `forward × ground_normal`, the negation of the claimed
`ground_normal × forward`; at chassis forward `[0,0,1]` the two differ by 2 in
the x component, far beyond the 1e-4 tolerance. -/
theorem C4_counterexample :
    1e-4 < |(physicsWheelSide (physicsWheelForward ⟨0, 0, 1⟩)).x -
      (v_cross groundN (physicsWheelForward ⟨0, 0, 1⟩)).x| := by
  have hp : planarProj ⟨0, 0, 1⟩ groundN = ⟨0, 0, 1⟩ := by
    rw [planarProj_groundN]
  have hm : v_mag (⟨0, 0, 1⟩ : Vec3) = 1 := by
    unfold v_mag v_dot
    norm_num
  have hf : physicsWheelForward ⟨0, 0, 1⟩ = ⟨0, 0, 1⟩ := by
    unfold physicsWheelForward
    rw [hp, hm, if_pos (by norm_num : (1e-6 : ℝ) < 1)]
    unfold v_scale
    simp only [Vec3.mk.injEq]
    norm_num
  rw [hf]
  unfold physicsWheelSide v_cross groundN
  norm_num

/-- C4 amended: in the live path the basis is orthonormal with the ground
normal and `side = forward × ground_normal` — exactly the negation of the
claimed `ground_normal × forward`. -/
theorem C4_amended_basis (cf : Vec3) :
    (physicsWheelForward cf).y = 0 ∧
    v_dot (physicsWheelForward cf) (physicsWheelForward cf) = 1 ∧
    v_dot (physicsWheelForward cf) groundN = 0 ∧
    physicsWheelSide (physicsWheelForward cf) =
      v_scale (v_cross groundN (physicsWheelForward cf)) (-1) ∧
    v_dot (physicsWheelSide (physicsWheelForward cf))
      (physicsWheelSide (physicsWheelForward cf)) = 1 ∧
    v_dot (physicsWheelSide (physicsWheelForward cf)) groundN = 0 := by
  have hy : (physicsWheelForward cf).y = 0 := by
    unfold physicsWheelForward
    split_ifs with h
    · rw [planarProj_groundN]
      unfold v_scale
      norm_num
    · norm_num
  have hunit : v_dot (physicsWheelForward cf) (physicsWheelForward cf) = 1 := by
    unfold physicsWheelForward
    split_ifs with h
    · exact v_scale_inv_mag_unit _ (lt_trans (by norm_num) h)
    · unfold v_dot
      norm_num
  have hperp : v_dot (physicsWheelForward cf) groundN = 0 := by
    unfold v_dot groundN
    linear_combination hy
  obtain ⟨h4, h5, h6⟩ := physicsWheelSide_facts _ hy hunit
  exact ⟨hy, hunit, hperp, h4, h5, h6⟩

-- ============================================================
-- C9 — no static-friction lock in the orchestrator
-- ============================================================

/-- C9 counterexample: at planar speed 0.2 m/s (< 0.4) — a state where the
claimed static-friction lock (brake > 0.8) would have to zero the planar
linear velocity and the full angular velocity — the only velocity-modifying
pass, `apply_velocity_damping`, leaves the linear velocity unchanged and only
scales the yaw rate by `exp(−6·dt)`, which stays positive.  No code path
reads the brake input to zero velocities. -/
theorem C9_counterexample :
    v_mag (⟨0.2, 0, 0⟩ : Vec3) < 0.4 ∧
    (apply_velocity_damping ⟨0.2, 0, 0⟩ ⟨0, 1, 0⟩ (1 / 60)).1 = ⟨0.2, 0, 0⟩ ∧
    0 < ((apply_velocity_damping ⟨0.2, 0, 0⟩ ⟨0, 1, 0⟩ (1 / 60)).2).y := by
  have hm : v_mag (⟨0.2, 0, 0⟩ : Vec3) = 0.2 := by
    unfold v_mag v_dot
    rw [show (0.2 : ℝ) * 0.2 + 0 * 0 + 0 * 0 = 0.2 ^ 2 from by ring,
      Real.sqrt_sq (by norm_num : (0 : ℝ) ≤ 0.2)]
  refine ⟨by rw [hm]; norm_num, ?_, ?_⟩
  · unfold apply_velocity_damping
    rfl
  · unfold apply_velocity_damping
    rw [hm, if_pos (by norm_num : (0.2 : ℝ) < 1)]
    dsimp only
    positivity

/-- C9 amended: `apply_velocity_damping` (which runs after the tick's impulses
are applied) never changes the linear velocity; below 1 m/s it zeroes the
roll and pitch rates and scales the yaw rate by `exp(−6·dt)`, which shrinks
it but never makes a nonzero yaw rate exactly zero.  There is no
brake-conditioned static-friction lock. -/
theorem C9_amended_damping (linvel angvel : Vec3) (dt : ℝ) (hdt : 0 ≤ dt) :
    (apply_velocity_damping linvel angvel dt).1 = linvel ∧
    (v_mag linvel < 1 →
      ((apply_velocity_damping linvel angvel dt).2).x = 0 ∧
      ((apply_velocity_damping linvel angvel dt).2).z = 0 ∧
      |((apply_velocity_damping linvel angvel dt).2).y| ≤ |angvel.y| ∧
      (angvel.y ≠ 0 → ((apply_velocity_damping linvel angvel dt).2).y ≠ 0)) := by
  unfold apply_velocity_damping
  refine ⟨rfl, fun hslow => ?_⟩
  rw [if_pos hslow]
  dsimp only
  refine ⟨rfl, rfl, ?_, ?_⟩
  · rw [abs_mul, abs_of_pos (Real.exp_pos _)]
    exact mul_le_of_le_one_right (abs_nonneg _) (Real.exp_le_one_iff.mpr (by linarith))
  · intro hne
    exact mul_ne_zero hne (ne_of_gt (Real.exp_pos _))

/-- Witness for C9's amended theorem at linvel 0, yaw rate 1 rad/s,
dt = 1/60. -/
theorem C9_amended_damping_witness :
    (apply_velocity_damping ⟨0, 0, 0⟩ ⟨0, 1, 0⟩ (1 / 60)).1 = ⟨0, 0, 0⟩ ∧
    (v_mag (⟨0, 0, 0⟩ : Vec3) < 1 →
      ((apply_velocity_damping ⟨0, 0, 0⟩ ⟨0, 1, 0⟩ (1 / 60)).2).x = 0 ∧
      ((apply_velocity_damping ⟨0, 0, 0⟩ ⟨0, 1, 0⟩ (1 / 60)).2).z = 0 ∧
      |((apply_velocity_damping ⟨0, 0, 0⟩ ⟨0, 1, 0⟩ (1 / 60)).2).y| ≤
        |(⟨0, 1, 0⟩ : Vec3).y| ∧
      ((⟨0, 1, 0⟩ : Vec3).y ≠ 0 →
        ((apply_velocity_damping ⟨0, 0, 0⟩ ⟨0, 1, 0⟩ (1 / 60)).2).y ≠ 0)) :=
  C9_amended_damping ⟨0, 0, 0⟩ ⟨0, 1, 0⟩ (1 / 60) (by norm_num)

-- ============================================================
-- C5 — engine impulse load fraction
-- ============================================================

/-- C5 counterexample: with mass 1000 kg, two driven wheels, engine force
100 N, throttle 1, dt = 1 s and F_n = 2943 N = 1.2·(m·g/4), the code computes
`load_frac = clamp(F_n / (m·g/2), 0.5, 1.6) = 0.6` and an engine impulse of
30 N·s, while the claimed formula with `F_z_ref = m·g/4` gives
`load_frac = 1.2` and 60 N·s. -/
theorem C5_counterexample :
    sl_engineJ ⟨1, 1000, 100, 0, false, false, 0.9, 0.85, 2⟩ ⟨1, 0, 0⟩
      ⟨WheelId.RL, true, ⟨0, 0, 1⟩, ⟨-1, 0, 0⟩, 0, 0, ⟨0, 0, 0⟩, 2943, 1, 1, 0.3, true, 0.5⟩ ≠
    specEngineJ ⟨1, 1000, 100, 0, false, false, 0.9, 0.85, 2⟩ ⟨1, 0, 0⟩
      ⟨WheelId.RL, true, ⟨0, 0, 1⟩, ⟨-1, 0, 0⟩, 0, 0, ⟨0, 0, 0⟩, 2943, 1, 1, 0.3, true, 0.5⟩ := by
  unfold sl_engineJ specEngineJ sl_engineForce sl_loadFrac sl_jcap sl_dt rclamp
  norm_num [min_def, max_def]

/-- C5 amended: for every drive wheel the engine impulse scalar equals
`clamp(F_engine·dt, −J_cap, +J_cap)` with
`F_engine = (F_engine_total / N̄)·throttle·clamp(F_n / (m·g/N̄), 0.5, 1.6)`
where `N̄ = max(N_driven, 1)` — the load-fraction denominator is the per-driven
-wheel static load `m·g/N_driven`, not `m·g/4`; the (pre-TCS) engine impulse
is this scalar along `+forward`, and it never exceeds the friction capacity. -/
theorem C5_amended_engine (ctx : SolveContext) (ctrl : ControlInput) (patch : ContactPatch)
    (hd : patch.drive = true) :
    sl_engineJ ctx ctrl patch = amendedEngineJ ctx ctrl patch ∧
    sl_engineImpulse ctx ctrl patch = v_scale patch.forward (sl_engineJ ctx ctrl patch) ∧
    |sl_engineJ ctx ctrl patch| ≤ sl_jcap ctx patch := by
  refine ⟨?_, rfl, ?_⟩
  · unfold sl_engineJ amendedEngineJ sl_engineForce sl_loadFrac
    rw [if_pos hd]
  · unfold sl_engineJ
    exact abs_rclamp_le (le_trans (by norm_num) (le_max_right _ _))

/-- Witness for C5's amended theorem at a concrete driven wheel. -/
theorem C5_amended_engine_witness :
    sl_engineJ ⟨1, 1000, 100, 0, false, false, 0.9, 0.85, 2⟩ ⟨1, 0, 0⟩
        ⟨WheelId.RL, true, ⟨0, 0, 1⟩, ⟨-1, 0, 0⟩, 0, 0, ⟨0, 0, 0⟩, 2943, 1, 1, 0.3, true, 0.5⟩ =
      amendedEngineJ ⟨1, 1000, 100, 0, false, false, 0.9, 0.85, 2⟩ ⟨1, 0, 0⟩
        ⟨WheelId.RL, true, ⟨0, 0, 1⟩, ⟨-1, 0, 0⟩, 0, 0, ⟨0, 0, 0⟩, 2943, 1, 1, 0.3, true, 0.5⟩ ∧
    sl_engineImpulse ⟨1, 1000, 100, 0, false, false, 0.9, 0.85, 2⟩ ⟨1, 0, 0⟩
        ⟨WheelId.RL, true, ⟨0, 0, 1⟩, ⟨-1, 0, 0⟩, 0, 0, ⟨0, 0, 0⟩, 2943, 1, 1, 0.3, true, 0.5⟩ =
      v_scale (⟨0, 0, 1⟩ : Vec3)
        (sl_engineJ ⟨1, 1000, 100, 0, false, false, 0.9, 0.85, 2⟩ ⟨1, 0, 0⟩
          ⟨WheelId.RL, true, ⟨0, 0, 1⟩, ⟨-1, 0, 0⟩, 0, 0, ⟨0, 0, 0⟩, 2943, 1, 1, 0.3, true, 0.5⟩) ∧
    |sl_engineJ ⟨1, 1000, 100, 0, false, false, 0.9, 0.85, 2⟩ ⟨1, 0, 0⟩
        ⟨WheelId.RL, true, ⟨0, 0, 1⟩, ⟨-1, 0, 0⟩, 0, 0, ⟨0, 0, 0⟩, 2943, 1, 1, 0.3, true, 0.5⟩| ≤
      sl_jcap ⟨1, 1000, 100, 0, false, false, 0.9, 0.85, 2⟩
        ⟨WheelId.RL, true, ⟨0, 0, 1⟩, ⟨-1, 0, 0⟩, 0, 0, ⟨0, 0, 0⟩, 2943, 1, 1, 0.3, true, 0.5⟩ :=
  C5_amended_engine ⟨1, 1000, 100, 0, false, false, 0.9, 0.85, 2⟩ ⟨1, 0, 0⟩
    ⟨WheelId.RL, true, ⟨0, 0, 1⟩, ⟨-1, 0, 0⟩, 0, 0, ⟨0, 0, 0⟩, 2943, 1, 1, 0.3, true, 0.5⟩ rfl

-- ============================================================
-- C1 — the brake impulse never pushes along v_long
-- ============================================================

/-- C1: for a grounded patch with `|v_long| > 0.05` whose fields satisfy the
live builder's invariants (`v_long = vel_world · forward` as in `physics.rs`
line 746, planar forward as produced by lines 737-744), the brake impulse
scalar after the actuator clamp, the friction-capacity clamp and the
same-sign zeroing rule, and the brake impulse vector projected onto forward
after the reorientation opposite the planar world velocity and after ABS
scaling, all have a product with `v_long` that is nonpositive: each stage is
exactly zero or opposes the wheel's longitudinal motion. -/
theorem C1_brake_opposes_vlong (ctx : SolveContext) (ctrl : ControlInput)
    (patch : ContactPatch) (brake_share : ℝ)
    (hg : patch.grounded = true)
    (hv : 0.05 < |patch.v_long|)
    (hvl : patch.v_long = v_dot patch.vel_world patch.forward)
    (hfy : patch.forward.y = 0)
    (hm : 0 ≤ ctx.mass)
    (hb : 0 ≤ ctrl.brake) :
    sl_brakeJ1 ctx ctrl patch brake_share * patch.v_long ≤ 0 ∧
    sl_brakeJ2 ctx ctrl patch brake_share * patch.v_long ≤ 0 ∧
    sl_brakeJ3 ctx ctrl patch brake_share * patch.v_long ≤ 0 ∧
    v_dot (sl_brakeImpulse ctx ctrl patch brake_share) patch.forward * patch.v_long ≤ 0 ∧
    v_dot (sl_brakeImpulseAbs ctx ctrl patch brake_share) patch.forward * patch.v_long ≤ 0 := by
  have hact : 0 ≤ sl_jbrakeAct ctx brake_share := le_max_right _ _
  have hcap : 0 ≤ sl_jcap ctx patch := le_trans (by norm_num) (le_max_right _ _)
  have hdem : sl_jbrakeDemand ctx ctrl patch * patch.v_long ≤ 0 := by
    unfold sl_jbrakeDemand sl_jstop
    nlinarith [sq_nonneg patch.v_long, mul_nonneg hm hb]
  have h1 : sl_brakeJ1 ctx ctrl patch brake_share * patch.v_long ≤ 0 := by
    unfold sl_brakeJ1
    exact rclamp_mul_nonpos hdem hact
  have h2 : sl_brakeJ2 ctx ctrl patch brake_share * patch.v_long ≤ 0 := by
    unfold sl_brakeJ2
    exact rclamp_mul_nonpos h1 hcap
  have h3 : sl_brakeJ3 ctx ctrl patch brake_share * patch.v_long ≤ 0 := by
    unfold sl_brakeJ3
    split_ifs with h
    · simp
    · exact h2
  have hvpf : v_dot (sl_vplanar patch) patch.forward = patch.v_long := by
    unfold sl_vplanar v_dot
    unfold v_dot at hvl
    linear_combination -hvl - patch.vel_world.y * hfy
  have h4 : v_dot (sl_brakeImpulse ctx ctrl patch brake_share) patch.forward *
      patch.v_long ≤ 0 := by
    unfold sl_brakeImpulse
    split_ifs with hsp
    · rw [v_dot_scale_left, v_dot_scale_left, hvpf]
      have hspd : 0 < sl_speed patch := lt_trans (by norm_num) hsp
      have habs : 0 ≤ |sl_brakeJ4 ctx ctrl patch brake_share| := abs_nonneg _
      have hinv : 0 < 1 / sl_speed patch := by positivity
      rw [show |sl_brakeJ4 ctx ctrl patch brake_share| * (-1 / sl_speed patch * patch.v_long) *
          patch.v_long =
          -(|sl_brakeJ4 ctx ctrl patch brake_share| * (1 / sl_speed patch) *
            patch.v_long ^ 2) from by ring]
      exact neg_nonpos.mpr (mul_nonneg (mul_nonneg habs (le_of_lt hinv)) (sq_nonneg _))
    · simp [vzero, v_dot]
  have h5 : v_dot (sl_brakeImpulseAbs ctx ctrl patch brake_share) patch.forward *
      patch.v_long ≤ 0 := by
    unfold sl_brakeImpulseAbs
    split_ifs with habs5
    · rw [v_dot_scale_left]
      have hs : 0 ≤ rclamp (ctx.abs_limit / sl_brakeNx ctx ctrl patch brake_share) 0 1 :=
        lo_le_rclamp _ _ _ (by norm_num)
      nlinarith [mul_nonneg hs (neg_nonneg.mpr h4)]
    · exact h4
  exact ⟨h1, h2, h3, h4, h5⟩

/-- Witness for C1 at a concrete braking state: forward `[0,0,1]`, contact
velocity `[0,0,10]`, `v_long = 10`, full brake. -/
theorem C1_brake_opposes_vlong_witness :
    sl_brakeJ1 ⟨1 / 60, 1000, 9000, 8000, true, true, 0.9, 0.85, 2⟩ ⟨0, 1, 0⟩
        ⟨WheelId.FL, true, ⟨0, 0, 1⟩, ⟨1, 0, 0⟩, 10, 0, ⟨0, 0, 10⟩, 3000, 0.85, 0.85, 0.3,
          false, 0.5⟩ 0.5 * (10 : ℝ) ≤ 0 ∧
    sl_brakeJ2 ⟨1 / 60, 1000, 9000, 8000, true, true, 0.9, 0.85, 2⟩ ⟨0, 1, 0⟩
        ⟨WheelId.FL, true, ⟨0, 0, 1⟩, ⟨1, 0, 0⟩, 10, 0, ⟨0, 0, 10⟩, 3000, 0.85, 0.85, 0.3,
          false, 0.5⟩ 0.5 * (10 : ℝ) ≤ 0 ∧
    sl_brakeJ3 ⟨1 / 60, 1000, 9000, 8000, true, true, 0.9, 0.85, 2⟩ ⟨0, 1, 0⟩
        ⟨WheelId.FL, true, ⟨0, 0, 1⟩, ⟨1, 0, 0⟩, 10, 0, ⟨0, 0, 10⟩, 3000, 0.85, 0.85, 0.3,
          false, 0.5⟩ 0.5 * (10 : ℝ) ≤ 0 ∧
    v_dot (sl_brakeImpulse ⟨1 / 60, 1000, 9000, 8000, true, true, 0.9, 0.85, 2⟩ ⟨0, 1, 0⟩
        ⟨WheelId.FL, true, ⟨0, 0, 1⟩, ⟨1, 0, 0⟩, 10, 0, ⟨0, 0, 10⟩, 3000, 0.85, 0.85, 0.3,
          false, 0.5⟩ 0.5) (⟨0, 0, 1⟩ : Vec3) * (10 : ℝ) ≤ 0 ∧
    v_dot (sl_brakeImpulseAbs ⟨1 / 60, 1000, 9000, 8000, true, true, 0.9, 0.85, 2⟩ ⟨0, 1, 0⟩
        ⟨WheelId.FL, true, ⟨0, 0, 1⟩, ⟨1, 0, 0⟩, 10, 0, ⟨0, 0, 10⟩, 3000, 0.85, 0.85, 0.3,
          false, 0.5⟩ 0.5) (⟨0, 0, 1⟩ : Vec3) * (10 : ℝ) ≤ 0 :=
  C1_brake_opposes_vlong ⟨1 / 60, 1000, 9000, 8000, true, true, 0.9, 0.85, 2⟩ ⟨0, 1, 0⟩
    ⟨WheelId.FL, true, ⟨0, 0, 1⟩, ⟨1, 0, 0⟩, 10, 0, ⟨0, 0, 10⟩, 3000, 0.85, 0.85, 0.3,
      false, 0.5⟩ 0.5
    rfl
    (by rw [show |(10 : ℝ)| = 10 from abs_of_pos (by norm_num)]; norm_num)
    (by unfold v_dot; norm_num)
    (by norm_num)
    (by norm_num)
    (by norm_num)

-- ============================================================
-- C2 — friction-ellipse budget after projection
-- ============================================================

/-- Core inequality of the ellipse projection: scaling both normalized
demands by `1/√(n_x²+n_y²)` when the ellipse is exceeded keeps the budget
below `1 + 1e-5`, and a lateral multiplier in `[0,1]` can only help. -/
theorem ellipse_core (a b roll : ℝ) (ha : 0 ≤ a) (hb : 0 ≤ b)
    (h0 : 0 ≤ roll) (h1 : roll ≤ 1) :
    ((if 1 < a * a + b * b then 1 / Real.sqrt (a * a + b * b) else 1) * a) ^ 2 +
      ((if 1 < a * a + b * b then 1 / Real.sqrt (a * a + b * b) else 1) * roll * b) ^ 2 ≤
    1 + 1e-5 := by
  split_ifs with he
  · have he0 : (0 : ℝ) < a * a + b * b := lt_trans one_pos he
    have hsq : Real.sqrt (a * a + b * b) * Real.sqrt (a * a + b * b) = a * a + b * b :=
      Real.mul_self_sqrt (le_of_lt he0)
    have hs : 0 < Real.sqrt (a * a + b * b) := Real.sqrt_pos.mpr he0
    have key : (1 / Real.sqrt (a * a + b * b) * a) ^ 2 +
        (1 / Real.sqrt (a * a + b * b) * roll * b) ^ 2 =
        (a ^ 2 + roll ^ 2 * b ^ 2) /
          (Real.sqrt (a * a + b * b) * Real.sqrt (a * a + b * b)) := by
      field_simp
      ring
    rw [key, hsq]
    have hle : a ^ 2 + roll ^ 2 * b ^ 2 ≤ a * a + b * b := by
      nlinarith [mul_nonneg (mul_nonneg (sub_nonneg.mpr h1)
        (by linarith : (0 : ℝ) ≤ 1 + roll)) (sq_nonneg b)]
    have hq : (a ^ 2 + roll ^ 2 * b ^ 2) / (a * a + b * b) ≤ 1 := by
      rw [div_le_one he0]
      linarith
    linarith
  · push_neg at he
    nlinarith [mul_nonneg (mul_nonneg (sub_nonneg.mpr h1)
      (by linarith : (0 : ℝ) ≤ 1 + roll)) (sq_nonneg b)]

/-- C2: after the ellipse projection of `solve_step` (with the lateral
channel additionally scaled by `roll_factor ∈ [0,1]`) the normalized demands
satisfy n_x² + n_y² ≤ 1 + 1e-5; when the ellipse was exceeded the uniform
scale `1/√(n_x²+n_y²)` is applied to both channels. -/
theorem C2_ellipse_budget (longImp latImp : Vec3) (mu_long mu_lat normal_force dt roll_factor : ℝ)
    (h0 : 0 ≤ roll_factor) (h1 : roll_factor ≤ 1) :
    ellipseNx (ellipseProject longImp latImp mu_long mu_lat normal_force dt roll_factor).1
        mu_long normal_force dt ^ 2 +
      ellipseNy (ellipseProject longImp latImp mu_long mu_lat normal_force dt roll_factor).2
        mu_lat normal_force dt ^ 2 ≤ 1 + 1e-5 := by
  have hml : (0 : ℝ) < ellipseMaxLong mu_long normal_force dt :=
    lt_of_lt_of_le (by norm_num) (le_max_right _ _)
  have hmlat : (0 : ℝ) < ellipseMaxLat mu_lat normal_force dt :=
    lt_of_lt_of_le (by norm_num) (le_max_right _ _)
  have hnx0 : 0 ≤ ellipseNx longImp mu_long normal_force dt :=
    div_nonneg (v_mag_nonneg _) (le_of_lt hml)
  have hny0 : 0 ≤ ellipseNy latImp mu_lat normal_force dt :=
    div_nonneg (v_mag_nonneg _) (le_of_lt hmlat)
  have hS0 : 0 ≤ ellipseScale longImp latImp mu_long mu_lat normal_force dt := by
    unfold ellipseScale
    split_ifs with h
    · positivity
    · norm_num
  have hnx : ellipseNx (ellipseProject longImp latImp mu_long mu_lat normal_force dt
        roll_factor).1 mu_long normal_force dt =
      ellipseScale longImp latImp mu_long mu_lat normal_force dt *
        ellipseNx longImp mu_long normal_force dt := by
    unfold ellipseProject
    dsimp only
    unfold ellipseNx
    rw [v_mag_scale, abs_of_nonneg hS0, mul_div_assoc]
  have hny : ellipseNy (ellipseProject longImp latImp mu_long mu_lat normal_force dt
        roll_factor).2 mu_lat normal_force dt =
      ellipseScale longImp latImp mu_long mu_lat normal_force dt * roll_factor *
        ellipseNy latImp mu_lat normal_force dt := by
    unfold ellipseProject
    dsimp only
    unfold ellipseNy
    rw [v_mag_scale, abs_of_nonneg (mul_nonneg hS0 h0), mul_div_assoc]
  rw [hnx, hny]
  unfold ellipseScale
  exact ellipse_core _ _ _ hnx0 hny0 h0 h1

/-- Witness for C2 at a concrete over-budget wheel: `J_long = [0,0,3]`,
`J_lat = [4,0,0]`, caps 2 N·s each, roll factor 0.3. -/
theorem C2_ellipse_budget_witness :
    ellipseNx (ellipseProject ⟨0, 0, 3⟩ ⟨4, 0, 0⟩ 1 1 2 1 0.3).1 1 2 1 ^ 2 +
      ellipseNy (ellipseProject ⟨0, 0, 3⟩ ⟨4, 0, 0⟩ 1 1 2 1 0.3).2 1 2 1 ^ 2 ≤ 1 + 1e-5 :=
  C2_ellipse_budget ⟨0, 0, 3⟩ ⟨4, 0, 0⟩ 1 1 2 1 0.3 (by norm_num) (by norm_num)

-- ============================================================
-- C6 — lateral solver formula
-- ============================================================

/-- C6 counterexample: at `v_lat = 10`, `v_long = 1`, mass 4 kg, dt = 1 s,
`μ_lat·F_n·dt = 20` on a front wheel with zero brake (an input that passes
the spec's deadzone), the code emits the clamp boundary −20 N·s
(`−10·m·atan2(v_lat, |v_long| ∨ 0.5)·dt = −40·arctan 10 < −20`), while the
spec's chain gives `clamp(−10, ±20)` times a slip-angle falloff in
`[0.2, 1]`, hence at least −10.  The two scalars differ. -/
theorem C6_counterexample :
    brushScalar ⟨1, 4, 0, 0, false, false, 1, 1, 2⟩
      ⟨WheelId.FL, true, ⟨0, 0, 1⟩, ⟨1, 0, 0⟩, 1, 10, ⟨0, 0, 0⟩, 20, 1, 1, 0.3, false, 0⟩ ≠
    specBrushScalar ⟨1, 4, 0, 0, false, false, 1, 1, 2⟩ ⟨0, 0, 0⟩
      ⟨WheelId.FL, true, ⟨0, 0, 1⟩, ⟨1, 0, 0⟩, 1, 10, ⟨0, 0, 0⟩, 20, 1, 1, 0.3, false, 0⟩ := by
  have ha1 : (3 / 4 : ℝ) ≤ Real.arctan 10 := by
    have hmono : Real.arctan 1 ≤ Real.arctan 10 :=
      Real.arctan_strictMono.monotone (by norm_num)
    rw [Real.arctan_one] at hmono
    linarith [Real.pi_gt_three]
  have hcode : brushScalar ⟨1, 4, 0, 0, false, false, 1, 1, 2⟩
      ⟨WheelId.FL, true, ⟨0, 0, 1⟩, ⟨1, 0, 0⟩, 1, 10, ⟨0, 0, 0⟩, 20, 1, 1, 0.3, false, 0⟩ =
      -20 := by
    unfold brushScalar rclamp
    dsimp only
    rw [show max |(1 : ℝ)| 0.5 = 1 from by rw [abs_one]; exact max_eq_left (by norm_num)]
    rw [show (10 : ℝ) / 1 = 10 from div_one 10]
    rw [max_eq_right (show -(10 * (4 : ℝ)) * Real.arctan 10 * 1 ≤ -(1 * 20 * 1) from by
      nlinarith [ha1])]
    rw [min_eq_left (show (-(1 * 20 * 1) : ℝ) ≤ 1 * 20 * 1 from by norm_num)]
    norm_num
  have hspec : (-10 : ℝ) ≤ specBrushScalar ⟨1, 4, 0, 0, false, false, 1, 1, 2⟩ ⟨0, 0, 0⟩
      ⟨WheelId.FL, true, ⟨0, 0, 1⟩, ⟨1, 0, 0⟩, 1, 10, ⟨0, 0, 0⟩, 20, 1, 1, 0.3, false, 0⟩ := by
    unfold specBrushScalar
    dsimp only [WheelId.is_rear]
    rw [if_neg (by simp)]
    rw [show |(10 : ℝ)| = 10 from abs_of_pos (by norm_num)]
    rw [show rclamp (((10 : ℝ) - 1.5) / 1.5) 0 1 = 1 from by
      unfold rclamp
      rw [max_eq_left (by norm_num : (0 : ℝ) ≤ (10 - 1.5) / 1.5)]
      exact min_eq_right (by norm_num)]
    rw [show rclamp (-(10 : ℝ) * (4 / 4) * (1 - 0 * 0.10) * 1) (-(1 * 20 * 1)) (1 * 20 * 1) =
        -10 from by
      unfold rclamp
      rw [max_eq_left (by norm_num : (-(1 * 20 * 1) : ℝ) ≤ -10 * (4 / 4) * (1 - 0 * 0.10) * 1)]
      rw [min_eq_left (by norm_num : (-10 * (4 / 4) * (1 - 0 * 0.10) * 1 : ℝ) ≤ 1 * 20 * 1)]
      norm_num]
    rw [show rclamp (1 - 0.6 * (0 : ℝ)) 0.3 1 = 1 from by
      unfold rclamp
      rw [max_eq_left (by norm_num : (0.3 : ℝ) ≤ 1 - 0.6 * 0)]
      rw [min_eq_right (by norm_num : (1 : ℝ) ≤ 1 - 0.6 * 0)]]
    have hs1 : rclamp (1 - |Real.arctan (10 / max |(1 : ℝ)| 1)| / 0.6) 0.2 1 ≤ 1 :=
      rclamp_le_hi _ _ _
    have hs2 : (0.2 : ℝ) ≤ rclamp (1 - |Real.arctan (10 / max |(1 : ℝ)| 1)| / 0.6) 0.2 1 :=
      lo_le_rclamp _ _ _ (by norm_num)
    nlinarith [hs1, hs2]
  intro heq
  rw [hcode] at heq
  linarith [hspec, heq.ge]

/-- C6 amended: for every grounded patch (the default deadzone is 0, so every
patch passes it) the lateral impulse is emitted along `side` with scalar
`clamp(−10·m·atan2(v_lat, max(|v_long|, 0.5))·dt, ±μ_lat·F_n·dt)`; it never
exceeds the friction clamp and never pushes along the existing lateral slip.
The spec's suspension factor, deadzone ramp, slip-angle falloff, brake
coupling and rear saturation are not applied. -/
theorem C6_amended_brush (ctx : SolveContext) (ctrl : ControlInput) (patch : ContactPatch)
    (hg : patch.grounded = true)
    (hm : 0 ≤ ctx.mass) (hdt : 0 ≤ ctx.dt)
    (hcap : 0 ≤ patch.mu_lat * patch.normal_force * ctx.dt) :
    solve_brush_lite brushLiteDefault ctx patch = v_scale patch.side (brushScalar ctx patch) ∧
    |brushScalar ctx patch| ≤ patch.mu_lat * patch.normal_force * ctx.dt ∧
    brushScalar ctx patch * patch.v_lat ≤ 0 := by
  refine ⟨?_, ?_, ?_⟩
  · unfold solve_brush_lite
    rw [hg]
    rw [if_neg (by simp : ¬(true = false))]
    rw [show brushLiteDefault.v_lat_deadzone = 0 from rfl]
    rw [if_neg (not_lt.mpr (abs_nonneg _))]
  · unfold brushScalar
    exact abs_rclamp_le hcap
  · have hden : (0 : ℝ) < max |patch.v_long| 0.5 :=
      lt_of_lt_of_le (by norm_num) (le_max_right _ _)
    have harct : 0 ≤ Real.arctan (patch.v_lat / max |patch.v_long| 0.5) * patch.v_lat := by
      rcases le_or_lt 0 patch.v_lat with hvl | hvl
      · have hq : 0 ≤ patch.v_lat / max |patch.v_long| 0.5 :=
          div_nonneg hvl (le_of_lt hden)
        have hmono := Real.arctan_strictMono.monotone hq
        rw [Real.arctan_zero] at hmono
        exact mul_nonneg hmono hvl
      · have hq : patch.v_lat / max |patch.v_long| 0.5 ≤ 0 :=
          le_of_lt (div_neg_of_neg_of_pos hvl hden)
        have hmono := Real.arctan_strictMono.monotone hq
        rw [Real.arctan_zero] at hmono
        nlinarith [mul_nonneg (neg_nonneg.mpr hmono) (neg_nonneg.mpr (le_of_lt hvl))]
    have hxv : -(10 * ctx.mass) * Real.arctan (patch.v_lat / max |patch.v_long| 0.5) *
        ctx.dt * patch.v_lat ≤ 0 := by
      rw [show -(10 * ctx.mass) * Real.arctan (patch.v_lat / max |patch.v_long| 0.5) *
          ctx.dt * patch.v_lat =
          -(10 * (ctx.mass * ctx.dt) *
            (Real.arctan (patch.v_lat / max |patch.v_long| 0.5) * patch.v_lat)) from by ring]
      exact neg_nonpos.mpr (mul_nonneg (mul_nonneg (by norm_num) (mul_nonneg hm hdt)) harct)
    unfold brushScalar
    exact rclamp_mul_nonpos hxv hcap

/-- Witness for C6's amended theorem at a concrete grounded patch. -/
theorem C6_amended_brush_witness :
    solve_brush_lite brushLiteDefault ⟨1, 1, 0, 0, false, false, 1, 1, 2⟩
        ⟨WheelId.FL, true, ⟨0, 0, 1⟩, ⟨1, 0, 0⟩, 0, 2, ⟨0, 0, 0⟩, 1, 1, 1, 0.3, false, 0⟩ =
      v_scale (⟨1, 0, 0⟩ : Vec3)
        (brushScalar ⟨1, 1, 0, 0, false, false, 1, 1, 2⟩
          ⟨WheelId.FL, true, ⟨0, 0, 1⟩, ⟨1, 0, 0⟩, 0, 2, ⟨0, 0, 0⟩, 1, 1, 1, 0.3, false, 0⟩) ∧
    |brushScalar ⟨1, 1, 0, 0, false, false, 1, 1, 2⟩
        ⟨WheelId.FL, true, ⟨0, 0, 1⟩, ⟨1, 0, 0⟩, 0, 2, ⟨0, 0, 0⟩, 1, 1, 1, 0.3, false, 0⟩| ≤
      1 * 1 * 1 ∧
    brushScalar ⟨1, 1, 0, 0, false, false, 1, 1, 2⟩
        ⟨WheelId.FL, true, ⟨0, 0, 1⟩, ⟨1, 0, 0⟩, 0, 2, ⟨0, 0, 0⟩, 1, 1, 1, 0.3, false, 0⟩ *
      (2 : ℝ) ≤ 0 :=
  C6_amended_brush ⟨1, 1, 0, 0, false, false, 1, 1, 2⟩ ⟨0, 0, 0⟩
    ⟨WheelId.FL, true, ⟨0, 0, 1⟩, ⟨1, 0, 0⟩, 0, 2, ⟨0, 0, 0⟩, 1, 1, 1, 0.3, false, 0⟩
    rfl (by norm_num) (by norm_num) (by norm_num)

end AvenLab
